import Mathlib

/-!
# Verification of the BetterSkin heuristic skin-metrics engine

Shallow embedding of `src/lib/realPixelAnalysis.ts` (the "enhanced" analysis
pipeline) together with the fragments of `src/lib/imageAnalysis.ts` that the
claims reference.  JavaScript numbers are modelled by exact rationals `ℚ`
(all arithmetic in the engine is +, -, *, /, abs, min/max, `Math.round`,
and one call to `Math.atan2`, modelled over `ℝ`).  `Math.round` rounds
half-up, i.e. `⌊x + 1/2⌋`.
-/

namespace BetterSkin

/-- JavaScript `Math.round`: rounds to the nearest integer, halves toward
positive infinity, i.e. `⌊q + 1/2⌋`. -/
def jround (q : ℚ) : ℤ := ⌊q + 1/2⌋

/-- Model of JS `Math.round(q * 100) / 100`, the two-decimal rounding applied to the
environmental factors. -/
def round2 (q : ℚ) : ℚ := (jround (q * 100) : ℚ) / 100

/-- An RGB triple as produced by `hexToRgb` (each channel an integer 0-255,
held as a rational since all downstream arithmetic is on JS numbers). -/
structure Rgb where
  r : ℚ
  g : ℚ
  b : ℚ
deriving DecidableEq

/-- The `SkinMetrics` record of `src/types/index.ts`: `oiliness`, `redness`
and `texture` are required numbers, `acne` and `wrinkles` are optional.
Every stage of the engine emits rounded (integer) values, so the fields are
modelled as integers. -/
structure SkinMetrics where
  oiliness : ℤ
  redness : ℤ
  texture : ℤ
  acne : Option ℤ
  wrinkles : Option ℤ
deriving DecidableEq

/-- Model of `EnvironmentalFactors` of `realPixelAnalysis.ts`. -/
structure EnvironmentalFactors where
  lightingQuality : ℚ
  colorTemperature : ℚ
  contrast : ℚ
deriving DecidableEq

/-- Model of `LabColor` of `realPixelAnalysis.ts` (simplified Lab space). -/
structure LabColor where
  l : ℚ
  a : ℚ
  b : ℚ

/-- The color-extraction result consumed by the engine: a platform tag and
the optional color strings the code reads (`primary`/`secondary` on iOS,
`dominant`/`average` otherwise, plus `vibrant`/`detail`). -/
structure Colors where
  platform : String
  primary : Option String := none
  secondary : Option String := none
  dominant : Option String := none
  average : Option String := none
  vibrant : Option String := none
  detail : Option String := none

/-- Face-detection metadata: the engine only reads `faceData?.yawAngle`. -/
structure FaceData where
  yawAngle : Option ℚ
deriving DecidableEq

/-- The per-metric advice strings of `RealAnalysisResult`. -/
structure Advice where
  oiliness : String
  redness : String
  texture : String
  acne : String
  wrinkles : String
deriving DecidableEq

/-- JavaScript `a || b` on an optional string (`undefined`, `null` and the
empty string are falsy). -/
def strOr (o : Option String) (d : String) : String :=
  match o with
  | some s => if s = "" then d else s
  | none => d

/-- Value of one hexadecimal digit, case-insensitive (`[a-f\d]` of the
`hexToRgb` regex). -/
def hexDigitVal (c : Char) : Option ℕ :=
  if '0' ≤ c ∧ c ≤ '9' then some (c.toNat - 48)
  else if 'a' ≤ c ∧ c ≤ 'f' then some (c.toNat - 87)
  else if 'A' ≤ c ∧ c ≤ 'F' then some (c.toNat - 55)
  else none

/-- Model of `parseInt` on a two-hex-digit group. -/
def hexByte (c1 c2 : Char) : Option ℚ :=
  match hexDigitVal c1, hexDigitVal c2 with
  | some h, some l => some ((16 * h + l : ℕ) : ℚ)
  | _, _ => none

/-- The regex match `/^#?([a-f\d]{2})([a-f\d]{2})([a-f\d]{2})$/i` of
`hexToRgb`: an optional `#` followed by exactly six hex digits. -/
def hexParse (s : String) : Option Rgb :=
  match s.data with
  | ['#', c1, c2, c3, c4, c5, c6] =>
    match hexByte c1 c2, hexByte c3 c4, hexByte c5 c6 with
    | some r, some g, some b => some ⟨r, g, b⟩
    | _, _, _ => none
  | [c1, c2, c3, c4, c5, c6] =>
    match hexByte c1 c2, hexByte c3 c4, hexByte c5 c6 with
    | some r, some g, some b => some ⟨r, g, b⟩
    | _, _, _ => none
  | _ => none

/-- Model of `hexToRgb` of `realPixelAnalysis.ts`: parse the hex string, falling back
to the neutral default `{r:180, g:140, b:110}` when the regex fails. -/
def hexToRgb (hex : String) : Rgb := (hexParse hex).getD ⟨180, 140, 110⟩

/-- Model of `getDominantColor`: platform-specific slot with the `'#D4A574'`
fallback. -/
def getDominantColor (colors : Colors) : String :=
  if colors.platform = "ios" then strOr colors.primary "#D4A574"
  else if colors.platform = "android" then strOr colors.dominant "#D4A574"
  else strOr colors.dominant "#D4A574"

/-- Model of `getAverageColor`: platform-specific slot with the `'#C89660'`
fallback. -/
def getAverageColor (colors : Colors) : String :=
  if colors.platform = "ios" then strOr colors.secondary "#C89660"
  else if colors.platform = "android" then strOr colors.average "#C89660"
  else strOr colors.average "#C89660"

/-- The inline `colors.vibrant || colors.detail || '#E6B887'` of
`analyzeColorsForSkinMetrics`. -/
def getVibrantColor (colors : Colors) : String :=
  strOr colors.vibrant (strOr colors.detail "#E6B887")

/-- Model of `calculateOilinessEnhanced`: piecewise-linear in mean brightness with a
saturation bonus, clamped to [15, 85] (value before the caller rounds). -/
def calculateOilinessEnhanced (dominant average : Rgb) : ℚ :=
  let dominantBrightness := (dominant.r + dominant.g + dominant.b) / 3
  let averageBrightness := (average.r + average.g + average.b) / 3
  let overallBrightness := (dominantBrightness + averageBrightness) / 2
  let oiliness :=
    if overallBrightness < 50 then 25 + overallBrightness * 0.4
    else if overallBrightness > 180 then 60 + (overallBrightness - 180) * 0.4
    else 25 + (overallBrightness - 50) * 0.35
  let saturation :=
    max dominant.r (max dominant.g dominant.b) - min dominant.r (min dominant.g dominant.b)
  max 15 (min 85 (oiliness + saturation * 0.1))

/-- Model of `calculateRednessEnhanced`: red-ratio based, plus a nonnegative erythema
term, clamped to [8, 85]. -/
def calculateRednessEnhanced (dominant average : Rgb) : ℚ :=
  let dominantRedRatio := dominant.r / max ((dominant.g + dominant.b) / 2) 1
  let averageRedRatio := average.r / max ((average.g + average.b) / 2) 1
  let overallRedRatio := (dominantRedRatio + averageRedRatio) / 2
  let erythemaIndex := dominant.r - dominant.g
  let redness :=
    if overallRedRatio < 0.9 then 8 + overallRedRatio * 15
    else if overallRedRatio > 1.4 then 45 + (overallRedRatio - 1.4) * 80
    else 20 + (overallRedRatio - 0.9) * 50
  max 8 (min 85 (redness + max 0 (erythemaIndex * 0.2)))

/-- Rec. 601 luminance used throughout `realPixelAnalysis.ts`. -/
def lum (c : Rgb) : ℚ := 0.299 * c.r + 0.587 * c.g + 0.114 * c.b

/-- Model of `calculateTextureEnhanced`, clamped to [10, 80]. -/
def calculateTextureEnhanced (dominant average vibrant : Rgb) : ℚ :=
  let variation := |lum dominant - lum average| + |lum average - lum vibrant|
  let colorUniformity :=
    |dominant.r - average.r| + |dominant.g - average.g| + |dominant.b - average.b|
  max 10 (min 80 (variation * 0.3 + colorUniformity * 0.2))

/-- Model of `calculateAcneEnhanced`, clamped to [5, 60]. -/
def calculateAcneEnhanced (dominant average : Rgb) : ℚ :=
  let dominantDarkness := 255 - (dominant.r + dominant.g + dominant.b) / 3
  let averageDarkness := 255 - (average.r + average.g + average.b) / 3
  let overallDarkness := (dominantDarkness + averageDarkness) / 2
  let colorIrregularity :=
    |dominant.r - average.r| + |dominant.g - average.g| + |dominant.b - average.b|
  max 5 (min 60 (overallDarkness * 0.15 + colorIrregularity * 0.08))

/-- Model of `calculateWrinklesEnhanced`, clamped to [8, 75]. -/
def calculateWrinklesEnhanced (dominant vibrant : Rgb) : ℚ :=
  let contrast :=
    |dominant.r - vibrant.r| + |dominant.g - vibrant.g| + |dominant.b - vibrant.b|
  let lumVariation := |lum dominant - lum vibrant|
  max 8 (min 75 (contrast * 0.15 + lumVariation * 0.25))

/-- Model of `analyzeColorsForSkinMetrics`: raw scoring of the three samples, each
score rounded.  All five fields, including `acne` and `wrinkles`, are always
set. -/
def analyzeColorsForSkinMetrics (colors : Colors) : SkinMetrics :=
  let dominantRGB := hexToRgb (getDominantColor colors)
  let averageRGB := hexToRgb (getAverageColor colors)
  let vibrantRGB := hexToRgb (getVibrantColor colors)
  { oiliness := jround (calculateOilinessEnhanced dominantRGB averageRGB)
    redness := jround (calculateRednessEnhanced dominantRGB averageRGB)
    texture := jround (calculateTextureEnhanced dominantRGB averageRGB vibrantRGB)
    acne := some (jround (calculateAcneEnhanced dominantRGB averageRGB))
    wrinkles := some (jround (calculateWrinklesEnhanced dominantRGB vibrantRGB)) }

/-- Model of `calculateEnvironmentalQuality`: lighting quality from dominant
brightness, color temperature from the red/blue ratio, contrast factor from
the dominant-vs-average channel difference; each rounded to 2 decimals. -/
def calculateEnvironmentalQuality (colors : Colors) : EnvironmentalFactors :=
  let dominantRGB := hexToRgb (getDominantColor colors)
  let averageRGB := hexToRgb (getAverageColor colors)
  let brightness := (dominantRGB.r + dominantRGB.g + dominantRGB.b) / 3
  let lightingQuality :=
    if brightness < 60 then 0.7 + brightness / 60 * 0.3
    else if brightness > 180 then 1.0 - (brightness - 180) / 75 * 0.3
    else 1.0
  let redBlueRatio := dominantRGB.r / max dominantRGB.b 1
  let colorTemperature : ℚ :=
    if redBlueRatio > 1.2 then 1.1 else if redBlueRatio < 0.8 then 0.9 else 1.0
  let contrast :=
    |dominantRGB.r - averageRGB.r| + |dominantRGB.g - averageRGB.g| +
      |dominantRGB.b - averageRGB.b|
  let contrastFactor : ℚ := if contrast > 30 then 1.2 else if contrast < 10 then 0.8 else 1.0
  { lightingQuality := round2 lightingQuality
    colorTemperature := round2 colorTemperature
    contrast := round2 contrastFactor }

/-- JavaScript `metrics.acne || 0` (an absent or zero field reads as 0). -/
def acneOr0 (m : SkinMetrics) : ℚ := ((m.acne.getD 0 : ℤ) : ℚ)

/-- JavaScript `metrics.wrinkles || 0`. -/
def wrinklesOr0 (m : SkinMetrics) : ℚ := ((m.wrinkles.getD 0 : ℤ) : ℚ)

/-- Model of `applyEnvironmentalCorrections`: multiplicative correction per metric,
clamped to [5, 95] and rounded.  `acne` and `wrinkles` are coerced with
`|| 0` and are always present in the output. -/
def applyEnvironmentalCorrections (metrics : SkinMetrics)
    (envFactors : EnvironmentalFactors) : SkinMetrics :=
  { oiliness := jround (max 5 (min 95 ((metrics.oiliness : ℚ) * envFactors.lightingQuality)))
    redness := jround (max 5 (min 95 ((metrics.redness : ℚ) * envFactors.colorTemperature)))
    texture := jround (max 5 (min 95 ((metrics.texture : ℚ) * envFactors.contrast)))
    acne := some (jround (max 5 (min 95 (acneOr0 metrics * envFactors.lightingQuality))))
    wrinkles := some (jround (max 5 (min 95 (wrinklesOr0 metrics * envFactors.contrast)))) }

/-- Accumulator for the weighted sums of `applyTemporalSmoothing`. -/
structure SmoothAcc where
  oiliness : ℚ
  redness : ℚ
  texture : ℚ
  acne : ℚ
  wrinkles : ℚ

/-- One iteration of the `forEach` body of `applyTemporalSmoothing`. -/
def addWeighted (acc : SmoothAcc) (previous : SkinMetrics) (w : ℚ) : SmoothAcc :=
  { oiliness := acc.oiliness + (previous.oiliness : ℚ) * w
    redness := acc.redness + (previous.redness : ℚ) * w
    texture := acc.texture + (previous.texture : ℚ) * w
    acne := acc.acne + acneOr0 previous * w
    wrinkles := acc.wrinkles + wrinklesOr0 previous * w }

/-- Model of `applyTemporalSmoothing`: pass-through on empty history, otherwise the
weighted sum with weights `[0.5, 0.3, 0.2]` over current and the first two
previous records (`weights[index + 1] || 0`), finally rounded per metric. -/
def applyTemporalSmoothing (currentMetrics : SkinMetrics)
    (previousResults : List SkinMetrics) : SkinMetrics :=
  if previousResults.isEmpty then currentMetrics
  else
    let weights : List ℚ := [0.5, 0.3, 0.2]
    let start : SmoothAcc :=
      { oiliness := (currentMetrics.oiliness : ℚ) * 0.5
        redness := (currentMetrics.redness : ℚ) * 0.5
        texture := (currentMetrics.texture : ℚ) * 0.5
        acne := acneOr0 currentMetrics * 0.5
        wrinkles := wrinklesOr0 currentMetrics * 0.5 }
    let smoothed := ((previousResults.take 2).enum).foldl
      (fun acc p => addWeighted acc p.2 (weights.getD (p.1 + 1) 0)) start
    { oiliness := jround smoothed.oiliness
      redness := jround smoothed.redness
      texture := jround smoothed.texture
      acne := some (jround smoothed.acne)
      wrinkles := some (jround smoothed.wrinkles) }

/-- Model of `rgbToLabSimplified`: the simplified Lab transform (channels normalized
to 0-1, then a linear map, then scaled by 100). -/
def rgbToLabSimplified (rgb : Rgb) : LabColor :=
  let r := rgb.r / 255
  let g := rgb.g / 255
  let b := rgb.b / 255
  { l := (0.299 * r + 0.587 * g + 0.114 * b) * 100
    a := (r - g) * 0.5 * 100
    b := (g - b) * 0.5 * 100 }

/-- The `switch (skinType)` body of `applySkinTypeNormalization`: per-class
multipliers on `oiliness` and `redness` only, each rounded, with no further
clamping; the `medium` default leaves the record unchanged. -/
def skinTypeAdjust (skinType : String) (m : SkinMetrics) : SkinMetrics :=
  if skinType = "very-light" then
    { m with oiliness := jround ((m.oiliness : ℚ) * 0.85)
             redness := jround ((m.redness : ℚ) * 1.15) }
  else if skinType = "light" then
    { m with oiliness := jround ((m.oiliness : ℚ) * 0.95)
             redness := jround ((m.redness : ℚ) * 1.05) }
  else if skinType = "tan" then
    { m with oiliness := jround ((m.oiliness : ℚ) * 1.05)
             redness := jround ((m.redness : ℚ) * 0.85) }
  else if skinType = "dark" then
    { m with oiliness := jround ((m.oiliness : ℚ) * 1.1)
             redness := jround ((m.redness : ℚ) * 0.7) }
  else m

/-- JavaScript `Math.atan2(y, x)` over the reals (signed zeros of IEEE
floats do not arise here; `Math.atan2(0, 0) = 0`). -/
noncomputable def atan2 (y x : ℝ) : ℝ :=
  open Classical in
  if 0 < x then Real.arctan (y / x)
  else if x < 0 then
    (if 0 ≤ y then Real.arctan (y / x) + Real.pi else Real.arctan (y / x) - Real.pi)
  else if 0 < y then Real.pi / 2
  else if y < 0 then -(Real.pi / 2)
  else 0

/-- Model of JS `Math.atan2(lab.b, lab.a) * (180 / Math.PI)`: the ITA angle in degrees
computed from a dominant RGB sample. -/
noncomputable def itaDeg (rgb : Rgb) : ℝ :=
  let lab := rgbToLabSimplified rgb
  atan2 (lab.b : ℝ) (lab.a : ℝ) * (180 / Real.pi)

/-- Model of `classifySkinType`: the five-bucket ITA classification. -/
noncomputable def classifySkinType (ita : ℝ) : String :=
  open Classical in
  if 55 < ita then "very-light"
  else if 41 < ita then "light"
  else if 28 < ita then "medium"
  else if 10 < ita then "tan"
  else "dark"

/-- Model of `determineSkinType`: classify the ITA of the dominant sample. -/
noncomputable def determineSkinType (colors : Colors) : String :=
  classifySkinType (itaDeg (hexToRgb (getDominantColor colors)))

/-- Model of `applySkinTypeNormalization`: classify the dominant sample and apply the
per-class adjustment. -/
noncomputable def applySkinTypeNormalization (metrics : SkinMetrics)
    (colors : Colors) : SkinMetrics :=
  skinTypeAdjust (classifySkinType (itaDeg (hexToRgb (getDominantColor colors)))) metrics

/-- The lighting block of `calculateConfidenceScore`: 100 on brightness in
[60, 180], 85 on the rest of [40, 200], else 70. -/
def lightingScore (dominantRGB : Rgb) : ℚ :=
  let brightness := (dominantRGB.r + dominantRGB.g + dominantRGB.b) / 3
  if brightness < 40 ∨ brightness > 200 then 70
  else if brightness < 60 ∨ brightness > 180 then 85
  else 100

/-- The face-angle block of `calculateConfidenceScore`: defaults to 100 when
`faceData?.yawAngle` is undefined. -/
def angleScore (faceData : Option FaceData) : ℚ :=
  match faceData with
  | some fd =>
    match fd.yawAngle with
    | some yaw => if |yaw| < 15 then 100 else if |yaw| < 30 then 85 else 70
    | none => 100
  | none => 100

/-- The color-consistency block of `calculateConfidenceScore`. -/
def consistencyScore (colors : Colors) : ℚ :=
  let dominantRGB := hexToRgb (getDominantColor colors)
  let avgRGB := hexToRgb (getAverageColor colors)
  let colorDiff :=
    |dominantRGB.r - avgRGB.r| + |dominantRGB.g - avgRGB.g| + |dominantRGB.b - avgRGB.b|
  if colorDiff < 50 then 100 else if colorDiff < 100 then 85 else 70

/-- The environmental block of `calculateConfidenceScore`: mean of the three
factors times 100, or 100 when no factors are passed. -/
def envScore (envFactors : Option EnvironmentalFactors) : ℚ :=
  match envFactors with
  | some e => (e.lightingQuality + e.colorTemperature + e.contrast) / 3 * 100
  | none => 100

/-- Model of `calculateConfidenceScore`: rounded unweighted mean of the four
sub-scores. -/
def calculateConfidenceScore (colors : Colors) (faceData : Option FaceData)
    (envFactors : Option EnvironmentalFactors) : ℤ :=
  jround ((lightingScore (hexToRgb (getDominantColor colors)) + angleScore faceData +
    consistencyScore colors + envScore envFactors) / 4)

/-- Model of `generateOilinessAdvice`. -/
def generateOilinessAdvice (score : ℤ) (pfx skinContext : String) : String :=
  if 70 ≤ score then
    pfx ++ "Your skin shows high oil production." ++ skinContext ++
      " benefits from oil-free cleansers twice daily, niacinamide serums, and lightweight, non-comedogenic moisturizers."
  else if 40 ≤ score then
    pfx ++ "Moderate oiliness detected." ++ skinContext ++
      " should balance with gentle cleansing morning and evening, and gel-based moisturizers to maintain hydration."
  else
    pfx ++ "Low oil levels indicate potentially dry skin." ++ skinContext ++
      " needs cream-based moisturizers and avoiding over-cleansing to preserve natural oils."

/-- Model of `generateRednessAdvice`. -/
def generateRednessAdvice (score : ℤ) (pfx skinContext : String) : String :=
  if 60 ≤ score then
    pfx ++ "Significant redness detected." ++ skinContext ++
      " requires gentle, fragrance-free products with soothing ingredients like aloe vera, chamomile, or centella asiatica."
  else if 30 ≤ score then
    pfx ++ "Mild redness present." ++ skinContext ++
      " would benefit from gentle skincare with anti-inflammatory ingredients like green tea or niacinamide."
  else
    pfx ++ "Minimal redness detected." ++ skinContext ++
      " appears calm. Focus on prevention with daily SPF protection and gentle maintenance."

/-- Model of `generateTextureAdvice`. -/
def generateTextureAdvice (score : ℤ) (pfx skinContext : String) : String :=
  if 70 ≤ score then
    pfx ++ "Rough texture detected." ++ skinContext ++
      " would improve with gentle exfoliation 2-3 times weekly using AHA/BHA products and hydrating serums."
  else if 40 ≤ score then
    pfx ++ "Moderate texture irregularities." ++ skinContext ++
      " can benefit from weekly gentle exfoliation and consistent moisturizing for smoother skin."
  else
    pfx ++ "Good skin texture detected." ++ skinContext ++
      " should maintain with gentle daily cleansing and regular moisturizing to preserve smoothness."

/-- Model of `generateAcneAdvice`. -/
def generateAcneAdvice (score : ℤ) (pfx skinContext : String) : String :=
  if 60 ≤ score then
    pfx ++ "Multiple blemishes detected." ++ skinContext ++
      " needs gentle salicylic acid products, non-comedogenic skincare, and professional guidance if severe."
  else if 30 ≤ score then
    pfx ++ "Some blemishes present." ++ skinContext ++
      " should maintain gentle cleansing, spot-treat with salicylic acid, and avoid picking affected areas."
  else
    pfx ++ "Minimal blemishes detected." ++ skinContext ++
      " should continue current routine focusing on prevention with gentle, non-comedogenic products."

/-- Model of `generateWrinklesAdvice`. -/
def generateWrinklesAdvice (score : ℤ) (pfx skinContext : String) : String :=
  if 60 ≤ score then
    pfx ++ "Visible aging signs detected." ++ skinContext ++
      " would benefit from gradual retinol introduction, daily SPF 30+, and hydrating serums with hyaluronic acid."
  else if 30 ≤ score then
    pfx ++ "Early aging signs present." ++ skinContext ++
      " should focus on daily SPF protection, gentle retinol products, and antioxidant serums for prevention."
  else
    pfx ++ "Minimal aging signs detected." ++ skinContext ++
      " should maintain prevention with daily SPF, antioxidant serums, and gentle moisturizing."

/-- Model of `generateAdviceFromMetrics`: the caveat applies when `confidence` is
truthy and below 80; the skin-type clause when `skinType` is truthy. -/
def generateAdviceFromMetrics (metrics : SkinMetrics) (confidence : Option ℤ)
    (skinType : Option String) : Advice :=
  let cPfx :=
    match confidence with
    | some c => if c ≠ 0 ∧ c < 80 then "Based on current image quality, " else ""
    | none => ""
  let skinTypeContext :=
    match skinType with
    | some s => if s = "" then "" else " Your " ++ s ++ " skin type"
    | none => ""
  { oiliness := generateOilinessAdvice metrics.oiliness cPfx skinTypeContext
    redness := generateRednessAdvice metrics.redness cPfx skinTypeContext
    texture := generateTextureAdvice metrics.texture cPfx skinTypeContext
    acne := generateAcneAdvice (metrics.acne.getD 0) cPfx skinTypeContext
    wrinkles := generateWrinklesAdvice (metrics.wrinkles.getD 0) cPfx skinTypeContext }

/-- The `RealAnalysisResult` record returned by the enhanced pipeline. -/
structure RealAnalysisResult where
  metrics : SkinMetrics
  advice : Advice
  confidence : Option ℤ
  skinType : Option String
  environmentalFactors : Option EnvironmentalFactors

/-- Model of `analyzeRealImageEnhanced` after color extraction: the strictly ordered
pipeline raw scoring → environmental correction → temporal smoothing →
skin-type normalization, plus confidence, skin type and advice.  `rand`
models the ambient `Math.random` entropy stream available to the module; the
enhanced pipeline never reads it (unlike the legacy
`analyzeImageBrightness` below, which does). -/
noncomputable def analyzeRealImageEnhanced (colors : Colors)
    (faceData : Option FaceData) (previousResults : List SkinMetrics)
    (rand : ℕ → ℚ) : RealAnalysisResult :=
  let _ := rand
  let envFactors := calculateEnvironmentalQuality colors
  let rawMetrics := analyzeColorsForSkinMetrics colors
  let adjustedMetrics := applyEnvironmentalCorrections rawMetrics envFactors
  let smoothedMetrics := applyTemporalSmoothing adjustedMetrics previousResults
  let normalizedMetrics := applySkinTypeNormalization smoothedMetrics colors
  let confidence := calculateConfidenceScore colors faceData (some envFactors)
  let skinType := determineSkinType colors
  let advice := generateAdviceFromMetrics normalizedMetrics (some confidence) (some skinType)
  { metrics := normalizedMetrics
    advice := advice
    confidence := some confidence
    skinType := some skinType
    environmentalFactors := some envFactors }

/-- The legacy `analyzeImageBrightness` of `src/lib/imageAnalysis.ts`: a
size-based score plus `Math.random() * 30 + 20`, clamped to [20, 80] and
rounded.  Its random draw is the injected noise the enhanced pipeline must
not reproduce. -/
def analyzeImageBrightness (base64Length : ℕ) (rand : ℚ) : ℤ :=
  let sizeScore := min 50 ((base64Length : ℚ) / 10000)
  let variance := rand * 30 + 20
  jround (min 80 (max 20 (sizeScore + variance)))

/-- The temporal-smoothing behaviour exactly as the specification words it:
with no history the input is returned unchanged; with one previous record
each metric is `round(0.5*current + 0.3*previous1)`; with two (or more, only
two are used) it is `round(0.5*current + 0.3*previous1 + 0.2*previous2)`.
The weights are not renormalized; absent `acne`/`wrinkles` fields read as 0
(JavaScript `|| 0`). -/
def smoothingSpec (cur : SkinMetrics) (prev : List SkinMetrics) : SkinMetrics :=
  match prev with
  | [] => cur
  | [p1] =>
    { oiliness := jround (0.5 * (cur.oiliness : ℚ) + 0.3 * (p1.oiliness : ℚ))
      redness := jround (0.5 * (cur.redness : ℚ) + 0.3 * (p1.redness : ℚ))
      texture := jround (0.5 * (cur.texture : ℚ) + 0.3 * (p1.texture : ℚ))
      acne := some (jround (0.5 * acneOr0 cur + 0.3 * acneOr0 p1))
      wrinkles := some (jround (0.5 * wrinklesOr0 cur + 0.3 * wrinklesOr0 p1)) }
  | p1 :: p2 :: _ =>
    { oiliness := jround (0.5 * (cur.oiliness : ℚ) + 0.3 * (p1.oiliness : ℚ) +
        0.2 * (p2.oiliness : ℚ))
      redness := jround (0.5 * (cur.redness : ℚ) + 0.3 * (p1.redness : ℚ) +
        0.2 * (p2.redness : ℚ))
      texture := jround (0.5 * (cur.texture : ℚ) + 0.3 * (p1.texture : ℚ) +
        0.2 * (p2.texture : ℚ))
      acne := some (jround (0.5 * acneOr0 cur + 0.3 * acneOr0 p1 + 0.2 * acneOr0 p2))
      wrinkles := some (jround (0.5 * wrinklesOr0 cur + 0.3 * wrinklesOr0 p1 +
        0.2 * wrinklesOr0 p2)) }

/-- Extraction result exhibiting the missing range clamp: a dominant color
with green above red and blue (so the ITA classification is `very-light`)
and a strongly red-shifted average sample. -/
def c1colors : Colors :=
  { platform := "android", dominant := some "#C8FF64", average := some "#FF644D",
    vibrant := some "#E6B887" }

/-- Extraction result driving the confidence score above 100: mid
brightness, warm color temperature, channel difference in (30, 50). -/
def c4colors : Colors :=
  { platform := "android", dominant := some "#969664", average := some "#8C8755" }

/-- Extraction result with the dominant slot missing (the code falls back to
the hard-coded `'#D4A574'`, not to the neutral default). -/
def c5missing : Colors :=
  { platform := "android", dominant := none, average := some "#B48C6E",
    vibrant := some "#B48C6E" }

/-- The same extraction result with the documented neutral default
`{r:180,g:140,b:110}` (hex `#B48C6E`) explicitly substituted for the
missing dominant slot. -/
def c5subst : Colors :=
  { platform := "android", dominant := some "#B48C6E", average := some "#B48C6E",
    vibrant := some "#B48C6E" }

/-- The "bright oily skin" reference fixture: dominant `#F0E5D0`
(240,229,208), average `#E8D5B7` (232,213,183), vibrant `#DCC5A0`
(220,197,160). -/
def fixtureColors : Colors :=
  { platform := "android", dominant := some "#F0E5D0", average := some "#E8D5B7",
    vibrant := some "#DCC5A0" }

/-- A fixed entropy stream used to instantiate `rand` in the closed
theorems. -/
def zeroRand : ℕ → ℚ := fun _ => 0

/-! ## General lemmas about the embedded operations -/

lemma jround_le {q : ℚ} {n : ℤ} (h : q ≤ (n : ℚ)) : jround q ≤ n := by
  rw [jround, Int.floor_le_iff]
  linarith

lemma le_jround {n : ℤ} {q : ℚ} (h : (n : ℚ) ≤ q) : n ≤ jround q := by
  rw [jround, Int.le_floor]
  linarith

lemma jround_intCast (n : ℤ) : jround (n : ℚ) = n :=
  le_antisymm (jround_le le_rfl) (le_jround le_rfl)

lemma hexDigitVal_lt {c : Char} {n : ℕ} (h : hexDigitVal c = some n) : n < 16 := by
  rw [hexDigitVal] at h
  split_ifs at h with h1 h2 h3
  · have g1 : ('0').toNat ≤ c.toNat := h1.1
    have g2 : c.toNat ≤ ('9').toNat := h1.2
    have e1 : ('0').toNat = 48 := rfl
    have e2 : ('9').toNat = 57 := rfl
    injection h with h
    omega
  · have g1 : ('a').toNat ≤ c.toNat := h2.1
    have g2 : c.toNat ≤ ('f').toNat := h2.2
    have e1 : ('a').toNat = 97 := rfl
    have e2 : ('f').toNat = 102 := rfl
    injection h with h
    omega
  · have g1 : ('A').toNat ≤ c.toNat := h3.1
    have g2 : c.toNat ≤ ('F').toNat := h3.2
    have e1 : ('A').toNat = 65 := rfl
    have e2 : ('F').toNat = 70 := rfl
    injection h with h
    omega

lemma hexByte_range {c1 c2 : Char} {v : ℚ} (h : hexByte c1 c2 = some v) :
    0 ≤ v ∧ v ≤ 255 := by
  rw [hexByte] at h
  cases hd1 : hexDigitVal c1 with
  | none => rw [hd1] at h; exact absurd h (by simp)
  | some n1 =>
    cases hd2 : hexDigitVal c2 with
    | none => rw [hd1, hd2] at h; exact absurd h (by simp)
    | some n2 =>
      rw [hd1, hd2] at h
      injection h with h
      have b1 := hexDigitVal_lt hd1
      have b2 := hexDigitVal_lt hd2
      subst h
      constructor
      · positivity
      · have : (16 * n1 + n2 : ℕ) ≤ 255 := by omega
        exact_mod_cast this

lemma hexParse_range {s : String} {rgb : Rgb} (h : hexParse s = some rgb) :
    (0 ≤ rgb.r ∧ rgb.r ≤ 255) ∧ (0 ≤ rgb.g ∧ rgb.g ≤ 255) ∧ (0 ≤ rgb.b ∧ rgb.b ≤ 255) := by
  rw [hexParse] at h
  split at h
  · rename_i c1 c2 c3 c4 c5 c6 _
    cases hb1 : hexByte c1 c2 with
    | none => rw [hb1] at h; exact absurd h (by simp)
    | some r =>
      cases hb2 : hexByte c3 c4 with
      | none => rw [hb1, hb2] at h; exact absurd h (by simp)
      | some g =>
        cases hb3 : hexByte c5 c6 with
        | none => rw [hb1, hb2, hb3] at h; exact absurd h (by simp)
        | some b =>
          rw [hb1, hb2, hb3] at h
          injection h with h
          subst h
          exact ⟨hexByte_range hb1, hexByte_range hb2, hexByte_range hb3⟩
  · rename_i c1 c2 c3 c4 c5 c6 _
    cases hb1 : hexByte c1 c2 with
    | none => rw [hb1] at h; exact absurd h (by simp)
    | some r =>
      cases hb2 : hexByte c3 c4 with
      | none => rw [hb1, hb2] at h; exact absurd h (by simp)
      | some g =>
        cases hb3 : hexByte c5 c6 with
        | none => rw [hb1, hb2, hb3] at h; exact absurd h (by simp)
        | some b =>
          rw [hb1, hb2, hb3] at h
          injection h with h
          subst h
          exact ⟨hexByte_range hb1, hexByte_range hb2, hexByte_range hb3⟩
  · exact absurd h (by simp)

lemma hexToRgb_range (s : String) :
    (0 ≤ (hexToRgb s).r ∧ (hexToRgb s).r ≤ 255) ∧
    (0 ≤ (hexToRgb s).g ∧ (hexToRgb s).g ≤ 255) ∧
    (0 ≤ (hexToRgb s).b ∧ (hexToRgb s).b ≤ 255) := by
  rw [hexToRgb]
  cases h : hexParse s with
  | none => norm_num
  | some rgb => simpa using hexParse_range h

lemma round2_le {q : ℚ} {c : ℚ} (hc : c = round2 q) (lo hi : ℤ)
    (h1 : (lo : ℚ) ≤ q * 100) (h2 : q * 100 ≤ (hi : ℚ)) :
    ((lo : ℚ) / 100 ≤ c ∧ c ≤ (hi : ℚ) / 100) := by
  subst hc
  rw [round2]
  constructor
  · have := le_jround h1
    have : (lo : ℚ) ≤ (jround (q * 100) : ℚ) := by exact_mod_cast this
    linarith
  · have := jround_le h2
    have : (jround (q * 100) : ℚ) ≤ (hi : ℚ) := by exact_mod_cast this
    linarith

lemma round2_intCast (n : ℤ) : round2 ((n : ℚ) / 100) = (n : ℚ) / 100 := by
  rw [round2]
  have : (n : ℚ) / 100 * 100 = (n : ℚ) := by ring
  rw [this, jround_intCast]

lemma calcEnv_lightingQuality_range (colors : Colors) :
    0.7 ≤ (calculateEnvironmentalQuality colors).lightingQuality ∧
      (calculateEnvironmentalQuality colors).lightingQuality ≤ 1 := by
  obtain ⟨⟨hr0, hr1⟩, ⟨hg0, hg1⟩, ⟨hb0, hb1⟩⟩ :=
    hexToRgb_range (getDominantColor colors)
  rw [calculateEnvironmentalQuality]
  set d := hexToRgb (getDominantColor colors)
  simp only
  set br := (d.r + d.g + d.b) / 3 with hbr
  have hbr0 : 0 ≤ br := by rw [hbr]; positivity
  have hbr255 : br ≤ 255 := by rw [hbr]; linarith
  split_ifs with h1 h2
  · have := round2_le (rfl :
      round2 (0.7 + br / 60 * 0.3) = round2 (0.7 + br / 60 * 0.3)) 70 100
      (by push_cast; linarith) (by push_cast; linarith)
    constructor
    · calc (0.7 : ℚ) = (70 : ℤ) / 100 := by norm_num
        _ ≤ _ := this.1
    · calc round2 (0.7 + br / 60 * 0.3) ≤ ((100 : ℤ) : ℚ) / 100 := this.2
        _ = 1 := by norm_num
  · have := round2_le (rfl :
      round2 (1.0 - (br - 180) / 75 * 0.3) = round2 (1.0 - (br - 180) / 75 * 0.3))
      70 100 (by push_cast; linarith) (by push_cast; linarith)
    constructor
    · calc (0.7 : ℚ) = (70 : ℤ) / 100 := by norm_num
        _ ≤ _ := this.1
    · calc round2 (1.0 - (br - 180) / 75 * 0.3) ≤ ((100 : ℤ) : ℚ) / 100 := this.2
        _ = 1 := by norm_num
  · have h : round2 1.0 = 1 := by
      rw [round2]
      norm_num [jround]
    rw [h]
    norm_num

lemma calcEnv_colorTemperature_mem (colors : Colors) :
    (calculateEnvironmentalQuality colors).colorTemperature = 0.9 ∨
    (calculateEnvironmentalQuality colors).colorTemperature = 1 ∨
    (calculateEnvironmentalQuality colors).colorTemperature = 1.1 := by
  rw [calculateEnvironmentalQuality]
  simp only
  split_ifs
  · right; right
    rw [show (1.1 : ℚ) = (110 : ℤ) / 100 by norm_num, round2_intCast]
  · left
    rw [show (0.9 : ℚ) = (90 : ℤ) / 100 by norm_num, round2_intCast]
  · right; left
    rw [show (1.0 : ℚ) = (100 : ℤ) / 100 by norm_num, round2_intCast]
    norm_num

lemma calcEnv_contrast_mem (colors : Colors) :
    (calculateEnvironmentalQuality colors).contrast = 0.8 ∨
    (calculateEnvironmentalQuality colors).contrast = 1 ∨
    (calculateEnvironmentalQuality colors).contrast = 1.2 := by
  rw [calculateEnvironmentalQuality]
  simp only
  split_ifs
  · right; right
    rw [show (1.2 : ℚ) = (120 : ℤ) / 100 by norm_num, round2_intCast]
  · left
    rw [show (0.8 : ℚ) = (80 : ℤ) / 100 by norm_num, round2_intCast]
  · right; left
    rw [show (1.0 : ℚ) = (100 : ℤ) / 100 by norm_num, round2_intCast]
    norm_num

lemma lightingScore_mem (rgb : Rgb) :
    lightingScore rgb = 100 ∨ lightingScore rgb = 85 ∨ lightingScore rgb = 70 := by
  rw [lightingScore]
  split_ifs <;> simp

lemma angleScore_mem (fd : Option FaceData) :
    angleScore fd = 100 ∨ angleScore fd = 85 ∨ angleScore fd = 70 := by
  rcases fd with - | ⟨- | y⟩ <;> simp only [angleScore] <;> try split_ifs <;> simp
  all_goals simp

lemma consistencyScore_mem (colors : Colors) :
    consistencyScore colors = 100 ∨ consistencyScore colors = 85 ∨
      consistencyScore colors = 70 := by
  rw [consistencyScore]
  split_ifs <;> simp

lemma atan2_of_pos {y x : ℝ} (hx : 0 < x) : atan2 y x = Real.arctan (y / x) := by
  rw [atan2, if_pos hx]

lemma pi_div_two_lt_atan2 {y x : ℝ} (hx : x < 0) (hy : 0 ≤ y) :
    Real.pi / 2 < atan2 y x := by
  rw [atan2, if_neg (by linarith), if_pos hx, if_pos hy]
  have h := Real.neg_pi_div_two_lt_arctan (y / x)
  linarith

lemma classify_veryLight {ita : ℝ} (h : 55 < ita) :
    classifySkinType ita = "very-light" := by
  rw [classifySkinType, if_pos h]

lemma deg_gt_55 {A : ℝ} (h : Real.pi / 3 ≤ A) : 55 < A * (180 / Real.pi) := by
  have hpi := Real.pi_pos
  have h60 : Real.pi / 3 * (180 / Real.pi) = 60 := by
    field_simp
    ring
  have hmono : Real.pi / 3 * (180 / Real.pi) ≤ A * (180 / Real.pi) := by
    have hq : (0:ℝ) < 180 / Real.pi := by positivity
    exact mul_le_mul_of_nonneg_right h (le_of_lt hq)
  rw [h60] at hmono
  linarith

lemma pi_div_three_lt_arctan {q : ℝ} (hq : Real.sqrt 3 < q) :
    Real.pi / 3 < Real.arctan q := by
  have hpi := Real.pi_pos
  have htan : Real.tan (Real.pi / 3) = Real.sqrt 3 := by
    rw [Real.tan_eq_sin_div_cos, Real.sin_pi_div_three, Real.cos_pi_div_three]
    ring
  have harctan : Real.arctan (Real.sqrt 3) = Real.pi / 3 := by
    rw [← htan]
    exact Real.arctan_tan (by linarith) (by linarith)
  calc Real.pi / 3 = Real.arctan (Real.sqrt 3) := harctan.symm
    _ < Real.arctan q := Real.arctan_strictMono hq

lemma ita_c1colors : classifySkinType (itaDeg ⟨200, 255, 100⟩) = "very-light" := by
  apply classify_veryLight
  rw [itaDeg]
  have hlab : rgbToLabSimplified ⟨200, 255, 100⟩ = ⟨44177/510, -550/51, 1550/51⟩ := by
    rw [rgbToLabSimplified]
    norm_num
  rw [hlab]
  apply deg_gt_55
  have h := @pi_div_two_lt_atan2 (((1550/51 : ℚ) : ℝ)) (((-550/51 : ℚ) : ℝ))
    (by push_cast; norm_num) (by push_cast; norm_num)
  have hpi := Real.pi_pos
  linarith

lemma ita_fixture : classifySkinType (itaDeg ⟨240, 229, 208⟩) = "very-light" := by
  apply classify_veryLight
  rw [itaDeg]
  have hlab : rgbToLabSimplified ⟨240, 229, 208⟩ = ⟨45979/510, 110/51, 70/17⟩ := by
    rw [rgbToLabSimplified]
    norm_num
  rw [hlab]
  have ha : ((110/51 : ℚ) : ℝ) = 110/51 := by push_cast; ring
  have hb : ((70/17 : ℚ) : ℝ) = 70/17 := by push_cast; ring
  rw [ha, hb, atan2_of_pos (by norm_num)]
  apply deg_gt_55
  have hdiv : (70/17 : ℝ) / (110/51) = 21/11 := by norm_num
  rw [hdiv]
  have hsqrt : Real.sqrt 3 < 21 / 11 := by
    rw [Real.sqrt_lt' (by norm_num)]
    norm_num
  exact le_of_lt (pi_div_three_lt_arctan hsqrt)

lemma skinTypeAdjust_acne (st : String) (m : SkinMetrics) :
    (skinTypeAdjust st m).acne = m.acne := by
  rw [skinTypeAdjust]
  split_ifs <;> rfl

lemma skinTypeAdjust_wrinkles (st : String) (m : SkinMetrics) :
    (skinTypeAdjust st m).wrinkles = m.wrinkles := by
  rw [skinTypeAdjust]
  split_ifs <;> rfl

lemma skinTypeAdjust_texture (st : String) (m : SkinMetrics) :
    (skinTypeAdjust st m).texture = m.texture := by
  rw [skinTypeAdjust]
  split_ifs <;> rfl

lemma smoothing_acne_isSome {cur : SkinMetrics} (prev : List SkinMetrics)
    (h : cur.acne.isSome) : (applyTemporalSmoothing cur prev).acne.isSome := by
  rw [applyTemporalSmoothing]
  split_ifs
  · exact h
  · simp

lemma smoothing_wrinkles_isSome {cur : SkinMetrics} (prev : List SkinMetrics)
    (h : cur.wrinkles.isSome) : (applyTemporalSmoothing cur prev).wrinkles.isSome := by
  rw [applyTemporalSmoothing]
  split_ifs
  · exact h
  · simp

lemma envCorrections_acne_isSome (m : SkinMetrics) (e : EnvironmentalFactors) :
    (applyEnvironmentalCorrections m e).acne.isSome := rfl

lemma envCorrections_wrinkles_isSome (m : SkinMetrics) (e : EnvironmentalFactors) :
    (applyEnvironmentalCorrections m e).wrinkles.isSome := rfl

lemma analyzeRealImageEnhanced_congr {c₁ c₂ : Colors}
    (h1 : hexToRgb (getDominantColor c₁) = hexToRgb (getDominantColor c₂))
    (h2 : hexToRgb (getAverageColor c₁) = hexToRgb (getAverageColor c₂))
    (h3 : hexToRgb (getVibrantColor c₁) = hexToRgb (getVibrantColor c₂))
    (fd : Option FaceData) (prev : List SkinMetrics) (rand : ℕ → ℚ) :
    analyzeRealImageEnhanced c₁ fd prev rand = analyzeRealImageEnhanced c₂ fd prev rand := by
  have e1 : calculateEnvironmentalQuality c₁ = calculateEnvironmentalQuality c₂ := by
    rw [calculateEnvironmentalQuality, calculateEnvironmentalQuality, h1, h2]
  have e2 : analyzeColorsForSkinMetrics c₁ = analyzeColorsForSkinMetrics c₂ := by
    rw [analyzeColorsForSkinMetrics, analyzeColorsForSkinMetrics, h1, h2, h3]
  have e3 : ∀ m, applySkinTypeNormalization m c₁ = applySkinTypeNormalization m c₂ := by
    intro m
    rw [applySkinTypeNormalization, applySkinTypeNormalization, h1]
  have e4 : determineSkinType c₁ = determineSkinType c₂ := by
    rw [determineSkinType, determineSkinType, h1]
  have e5 : consistencyScore c₁ = consistencyScore c₂ := by
    rw [consistencyScore, consistencyScore, h1, h2]
  simp only [analyzeRealImageEnhanced, calculateConfidenceScore, e1, e2, e3, e4, e5, h1]

lemma envScore_calc_range (colors : Colors) :
    80 ≤ envScore (some (calculateEnvironmentalQuality colors)) ∧
      envScore (some (calculateEnvironmentalQuality colors)) ≤ 110 := by
  obtain ⟨hlq0, hlq1⟩ := calcEnv_lightingQuality_range colors
  have he : envScore (some (calculateEnvironmentalQuality colors)) =
      ((calculateEnvironmentalQuality colors).lightingQuality +
        (calculateEnvironmentalQuality colors).colorTemperature +
        (calculateEnvironmentalQuality colors).contrast) / 3 * 100 := rfl
  rw [he]
  rcases calcEnv_colorTemperature_mem colors with h | h | h <;>
    rcases calcEnv_contrast_mem colors with h2 | h2 | h2 <;>
      rw [h, h2] <;> constructor <;> linarith

lemma confidence_in_0_103 (colors : Colors) (fd : Option FaceData) :
    0 ≤ calculateConfidenceScore colors fd (some (calculateEnvironmentalQuality colors)) ∧
      calculateConfidenceScore colors fd (some (calculateEnvironmentalQuality colors)) ≤ 103 := by
  have hlb : 70 ≤ lightingScore (hexToRgb (getDominantColor colors)) ∧
      lightingScore (hexToRgb (getDominantColor colors)) ≤ 100 := by
    rcases lightingScore_mem (hexToRgb (getDominantColor colors)) with h | h | h <;>
      rw [h] <;> norm_num
  have hab : 70 ≤ angleScore fd ∧ angleScore fd ≤ 100 := by
    rcases angleScore_mem fd with h | h | h <;> rw [h] <;> norm_num
  have hcb : 70 ≤ consistencyScore colors ∧ consistencyScore colors ≤ 100 := by
    rcases consistencyScore_mem colors with h | h | h <;> rw [h] <;> norm_num
  have heb := envScore_calc_range colors
  rw [calculateConfidenceScore]
  constructor
  · apply le_jround
    push_cast
    linarith [hlb.1, hab.1, hcb.1, heb.1]
  · apply jround_le
    push_cast
    linarith [hlb.2, hab.2, hcb.2, heb.2]

lemma analyze_acne_isSome (colors : Colors) (fd : Option FaceData)
    (prev : List SkinMetrics) (rand : ℕ → ℚ) :
    (analyzeRealImageEnhanced colors fd prev rand).metrics.acne.isSome := by
  show (applySkinTypeNormalization (applyTemporalSmoothing (applyEnvironmentalCorrections
    (analyzeColorsForSkinMetrics colors) (calculateEnvironmentalQuality colors)) prev)
    colors).acne.isSome
  rw [applySkinTypeNormalization, skinTypeAdjust_acne]
  exact smoothing_acne_isSome prev (envCorrections_acne_isSome _ _)

lemma analyze_wrinkles_isSome (colors : Colors) (fd : Option FaceData)
    (prev : List SkinMetrics) (rand : ℕ → ℚ) :
    (analyzeRealImageEnhanced colors fd prev rand).metrics.wrinkles.isSome := by
  show (applySkinTypeNormalization (applyTemporalSmoothing (applyEnvironmentalCorrections
    (analyzeColorsForSkinMetrics colors) (calculateEnvironmentalQuality colors)) prev)
    colors).wrinkles.isSome
  rw [applySkinTypeNormalization, skinTypeAdjust_wrinkles]
  exact smoothing_wrinkles_isSome prev (envCorrections_wrinkles_isSome _ _)

lemma fixture_metrics :
    (analyzeRealImageEnhanced fixtureColors none [] zeroRand).metrics =
      ⟨54, 39, 23, some 8, some 28⟩ := by
  have hd : hexToRgb (getDominantColor fixtureColors) = ⟨240, 229, 208⟩ := by decide
  have ha : hexToRgb (getAverageColor fixtureColors) = ⟨232, 213, 183⟩ := by decide
  have hv : hexToRgb (getVibrantColor fixtureColors) = ⟨220, 197, 160⟩ := by decide
  have hraw : analyzeColorsForSkinMetrics fixtureColors = ⟨78, 34, 19, some 10, some 23⟩ := by
    rw [analyzeColorsForSkinMetrics, hd, ha, hv]
    simp only [SkinMetrics.mk.injEq, Option.some.injEq]
    refine ⟨?_, ?_, ?_, ?_, ?_⟩ <;>
      norm_num [calculateOilinessEnhanced, calculateRednessEnhanced, calculateTextureEnhanced,
        calculateAcneEnhanced, calculateWrinklesEnhanced, lum, jround, abs_of_nonneg]
  have henv : calculateEnvironmentalQuality fixtureColors = ⟨0.82, 1, 1.2⟩ := by
    rw [calculateEnvironmentalQuality, hd, ha]
    simp only [EnvironmentalFactors.mk.injEq]
    refine ⟨?_, ?_, ?_⟩ <;> norm_num [round2, jround]
  have hadj : applyEnvironmentalCorrections ⟨78, 34, 19, some 10, some 23⟩ ⟨0.82, 1, 1.2⟩ =
      ⟨64, 34, 23, some 8, some 28⟩ := by
    rw [applyEnvironmentalCorrections]
    simp only [SkinMetrics.mk.injEq, Option.some.injEq]
    refine ⟨?_, ?_, ?_, ?_, ?_⟩ <;> norm_num [acneOr0, wrinklesOr0, jround]
  show applySkinTypeNormalization (applyTemporalSmoothing (applyEnvironmentalCorrections
    (analyzeColorsForSkinMetrics fixtureColors) (calculateEnvironmentalQuality fixtureColors)) [])
    fixtureColors = ⟨54, 39, 23, some 8, some 28⟩
  rw [hraw, henv, hadj, applyTemporalSmoothing]
  simp only [List.isEmpty_nil, if_true]
  rw [applySkinTypeNormalization, hd, ita_fixture, skinTypeAdjust]
  norm_num [SkinMetrics.mk.injEq, jround]

lemma fixture_skinType :
    (analyzeRealImageEnhanced fixtureColors none [] zeroRand).skinType =
      some "very-light" := by
  show some (determineSkinType fixtureColors) = some "very-light"
  have hd : hexToRgb (getDominantColor fixtureColors) = ⟨240, 229, 208⟩ := by decide
  rw [determineSkinType, hd, ita_fixture]

/-! ## Claim theorems -/

/-- C1: the claim states that for valid RGB inputs and 0-2 prior records
every metrics field of the full pipeline is an integer in [0,100] and no
stage emits a value above 100.  The code violates this: the skin-type
normalization stage multiplies redness by 1.15 without re-clamping.  This
theorem evaluates the engine at the failing input (dominant `#C8FF64`,
average `#FF644D`, vibrant `#E6B887`, empty history): the returned redness
is 108 — above 100, contradicting the code's own `SkinMetrics` type
documentation (`// 0-100`). -/
theorem c1_redness_108 :
    (analyzeRealImageEnhanced c1colors none [] zeroRand).metrics.redness = 108 := by
  have hd : hexToRgb (getDominantColor c1colors) = ⟨200, 255, 100⟩ := by decide
  have ha : hexToRgb (getAverageColor c1colors) = ⟨255, 100, 77⟩ := by decide
  have hredraw : calculateRednessEnhanced ⟨200, 255, 100⟩ ⟨255, 100, 77⟩ = 85 := by
    rw [calculateRednessEnhanced]
    norm_num
  have hct : (calculateEnvironmentalQuality c1colors).colorTemperature = 1.1 := by
    rw [calculateEnvironmentalQuality, hd]
    norm_num [round2, jround]
  have hrawred : (analyzeColorsForSkinMetrics c1colors).redness = 85 := by
    rw [analyzeColorsForSkinMetrics, hd, ha]
    show jround (calculateRednessEnhanced ⟨200, 255, 100⟩ ⟨255, 100, 77⟩) = 85
    rw [hredraw]
    norm_num [jround]
  show (applySkinTypeNormalization (applyTemporalSmoothing (applyEnvironmentalCorrections
    (analyzeColorsForSkinMetrics c1colors) (calculateEnvironmentalQuality c1colors)) [])
    c1colors).redness = 108
  rw [applySkinTypeNormalization, hd, ita_c1colors]
  rw [applyTemporalSmoothing]
  simp only [List.isEmpty_nil, if_true]
  rw [skinTypeAdjust]
  simp only [if_pos rfl]
  rw [applyEnvironmentalCorrections]
  simp only [hrawred, hct]
  norm_num [jround]

/-- C2 counterexample: the claim states that for a non-premium user the
returned metrics contain no acne and no wrinkles field.  The enhanced
engine has no premium flag at all and always emits both fields; at this
concrete input (any would do) they are present. -/
theorem c2_premium_gating_counterexample :
    (analyzeRealImageEnhanced c1colors none [] zeroRand).metrics.acne ≠ none ∧
    (analyzeRealImageEnhanced c1colors none [] zeroRand).metrics.wrinkles ≠ none :=
  ⟨Option.ne_none_iff_isSome.mpr (analyze_acne_isSome c1colors none [] zeroRand),
   Option.ne_none_iff_isSome.mpr (analyze_wrinkles_isSome c1colors none [] zeroRand)⟩

/-- C2 amended: the enhanced pipeline always returns present (numeric) acne
and wrinkles fields, for every input and history — it performs no premium
gating (display-level gating happens in the UI layer instead). -/
theorem c2_acne_wrinkles_always_present (colors : Colors) (fd : Option FaceData)
    (prev : List SkinMetrics) (rand : ℕ → ℚ) :
    (analyzeRealImageEnhanced colors fd prev rand).metrics.acne.isSome ∧
    (analyzeRealImageEnhanced colors fd prev rand).metrics.wrinkles.isSome :=
  ⟨analyze_acne_isSome colors fd prev rand, analyze_wrinkles_isSome colors fd prev rand⟩

/-- C3: determinism.  Running the enhanced pipeline twice on identical color
samples and identical context (same previous metrics, same face-angle data)
yields identical output in every component; the ambient entropy stream
(`Math.random`, modelled by `rand`) has no influence on any stage — in
contrast to the legacy `analyzeImageBrightness`, which reads it. -/
theorem c3_determinism (colors : Colors) (fd : Option FaceData)
    (prev : List SkinMetrics) (rand1 rand2 : ℕ → ℚ) :
    analyzeRealImageEnhanced colors fd prev rand1 =
      analyzeRealImageEnhanced colors fd prev rand2 := rfl

/-- C4 counterexample: the claim states the returned confidence is in
[0,100].  At this input the lighting, angle and consistency sub-scores are
all 100 while the environmental sub-score is 110 (factors 1.0, 1.1, 1.2),
so the engine returns round(410/4) = 103 > 100. -/
theorem c4_confidence_103_counterexample :
    (analyzeRealImageEnhanced c4colors none [] zeroRand).confidence = some 103 ∧
      ¬((103 : ℤ) ≤ 100) := by
  refine ⟨?_, by norm_num⟩
  have hd : hexToRgb (getDominantColor c4colors) = ⟨150, 150, 100⟩ := by decide
  have ha : hexToRgb (getAverageColor c4colors) = ⟨140, 135, 85⟩ := by decide
  have henv : calculateEnvironmentalQuality c4colors = ⟨1, 1.1, 1.2⟩ := by
    rw [calculateEnvironmentalQuality, hd, ha]
    simp only [EnvironmentalFactors.mk.injEq]
    refine ⟨?_, ?_, ?_⟩ <;> norm_num [round2, jround]
  show some (calculateConfidenceScore c4colors none
    (some (calculateEnvironmentalQuality c4colors))) = some 103
  rw [henv, calculateConfidenceScore, hd]
  rw [consistencyScore, hd, ha]
  norm_num [lightingScore, angleScore, envScore, jround]

/-- C4 amended: the returned confidence is the rounded unweighted mean of
the four sub-scores, with the environmental sub-score equal to the mean of
the three environmental factors times 100 (100 when factors are
unavailable); it is an integer in [0,103] — the upper bound 100 of the
original claim fails (see the counterexample) and 103 is the correct
ceiling. -/
theorem c4_confidence_formula_and_bounds (colors : Colors) (fd : Option FaceData)
    (prev : List SkinMetrics) (rand : ℕ → ℚ) :
    (analyzeRealImageEnhanced colors fd prev rand).confidence =
      some (calculateConfidenceScore colors fd (some (calculateEnvironmentalQuality colors))) ∧
    calculateConfidenceScore colors fd (some (calculateEnvironmentalQuality colors)) =
      jround ((lightingScore (hexToRgb (getDominantColor colors)) + angleScore fd +
        consistencyScore colors + envScore (some (calculateEnvironmentalQuality colors))) / 4) ∧
    (∀ e : EnvironmentalFactors, envScore (some e) =
      (e.lightingQuality + e.colorTemperature + e.contrast) / 3 * 100) ∧
    envScore none = 100 ∧
    0 ≤ calculateConfidenceScore colors fd (some (calculateEnvironmentalQuality colors)) ∧
    calculateConfidenceScore colors fd (some (calculateEnvironmentalQuality colors)) ≤ 103 :=
  ⟨rfl, rfl, fun _ => rfl, rfl, (confidence_in_0_103 colors fd).1,
   (confidence_in_0_103 colors fd).2⟩

/-- C5 counterexample: the claim states a missing dominant sample behaves
like the neutral default {r:180,g:140,b:110}.  It does not: a missing slot
falls back to the hard-coded hex `#D4A574` (212,165,116), and the two runs
differ (already in their environmental factors: contrast 1.2 vs 0.8). -/
theorem c5_missing_sample_counterexample :
    analyzeRealImageEnhanced c5missing none [] zeroRand ≠
      analyzeRealImageEnhanced c5subst none [] zeroRand := by
  intro h
  have h2 := congrArg (fun r => r.environmentalFactors) h
  have g1 : (calculateEnvironmentalQuality c5missing).contrast = 1.2 := by
    have hd : hexToRgb (getDominantColor c5missing) = ⟨212, 165, 116⟩ := by decide
    have ha : hexToRgb (getAverageColor c5missing) = ⟨180, 140, 110⟩ := by decide
    rw [calculateEnvironmentalQuality, hd, ha]
    norm_num [round2, jround]
  have g2 : (calculateEnvironmentalQuality c5subst).contrast = 0.8 := by
    have hd : hexToRgb (getDominantColor c5subst) = ⟨180, 140, 110⟩ := by decide
    have ha : hexToRgb (getAverageColor c5subst) = ⟨180, 140, 110⟩ := by decide
    rw [calculateEnvironmentalQuality, hd, ha]
    norm_num [round2, jround]
  have h3 : some (calculateEnvironmentalQuality c5missing) =
      some (calculateEnvironmentalQuality c5subst) := h2
  have h4 := congrArg (fun e => (Option.getD e ⟨0, 0, 0⟩).contrast) h3
  simp only [Option.getD_some] at h4
  rw [g1, g2] at h4
  norm_num at h4

/-- C5 amended: the neutral default {r:180,g:140,b:110} is the fallback for
an unparseable (non-empty) color string, not for a missing slot.  Running
the engine with non-empty unparseable strings in the dominant, average and
vibrant slots yields exactly the same result as substituting the default
(hex `#B48C6E`) in those slots; missing slots instead use per-slot
hard-coded hex fallbacks. -/
theorem c5_unparseable_equals_default (prim sec det : Option String)
    (fd : Option FaceData) (prev : List SkinMetrics) (rand : ℕ → ℚ)
    (sd sa sv : String) (hd0 : sd ≠ "") (ha0 : sa ≠ "") (hv0 : sv ≠ "")
    (hd1 : hexParse sd = none) (ha1 : hexParse sa = none) (hv1 : hexParse sv = none) :
    analyzeRealImageEnhanced
        ⟨"android", prim, sec, some sd, some sa, some sv, det⟩ fd prev rand =
      analyzeRealImageEnhanced
        ⟨"android", prim, sec, some "#B48C6E", some "#B48C6E", some "#B48C6E", det⟩
        fd prev rand := by
  have hparse : hexParse "#B48C6E" = some ⟨180, 140, 110⟩ := by decide
  apply analyzeRealImageEnhanced_congr
  · have e1 : getDominantColor ⟨"android", prim, sec, some sd, some sa, some sv, det⟩ = sd := by
      simp [getDominantColor, strOr, hd0]
    have e2 : getDominantColor
        ⟨"android", prim, sec, some "#B48C6E", some "#B48C6E", some "#B48C6E", det⟩ =
        "#B48C6E" := by
      simp [getDominantColor, strOr]
    rw [e1, e2, hexToRgb, hexToRgb, hd1, hparse]
    rfl
  · have e1 : getAverageColor ⟨"android", prim, sec, some sd, some sa, some sv, det⟩ = sa := by
      simp [getAverageColor, strOr, ha0]
    have e2 : getAverageColor
        ⟨"android", prim, sec, some "#B48C6E", some "#B48C6E", some "#B48C6E", det⟩ =
        "#B48C6E" := by
      simp [getAverageColor, strOr]
    rw [e1, e2, hexToRgb, hexToRgb, ha1, hparse]
    rfl
  · have e1 : getVibrantColor ⟨"android", prim, sec, some sd, some sa, some sv, det⟩ = sv := by
      simp [getVibrantColor, strOr, hv0]
    have e2 : getVibrantColor
        ⟨"android", prim, sec, some "#B48C6E", some "#B48C6E", some "#B48C6E", det⟩ =
        "#B48C6E" := by
      simp [getVibrantColor, strOr]
    rw [e1, e2, hexToRgb, hexToRgb, hv1, hparse]
    rfl

/-- C5 witness: the amended theorem applied at the unparseable string
"zz". -/
theorem c5_unparseable_equals_default_witness :
    analyzeRealImageEnhanced
        ⟨"android", none, none, some "zz", some "zz", some "zz", none⟩ none [] zeroRand =
      analyzeRealImageEnhanced
        ⟨"android", none, none, some "#B48C6E", some "#B48C6E", some "#B48C6E", none⟩
        none [] zeroRand :=
  c5_unparseable_equals_default none none none none [] zeroRand "zz" "zz" "zz"
    (by decide) (by decide) (by decide) (by decide) (by decide) (by decide)

/-- C6 counterexample: the claim expects, at the reference fixture
(dominant `#F0E5D0`, average `#E8D5B7`, vibrant `#DCC5A0`, empty history,
not premium), oiliness in [60,80], redness in [5,25] and absent
acne/wrinkles.  The pipeline actually returns oiliness 54, redness 39 and
present acne/wrinkles. -/
theorem c6_fixture_expectations_fail :
    ¬(60 ≤ (analyzeRealImageEnhanced fixtureColors none [] zeroRand).metrics.oiliness ∧
      (analyzeRealImageEnhanced fixtureColors none [] zeroRand).metrics.oiliness ≤ 80 ∧
      5 ≤ (analyzeRealImageEnhanced fixtureColors none [] zeroRand).metrics.redness ∧
      (analyzeRealImageEnhanced fixtureColors none [] zeroRand).metrics.redness ≤ 25 ∧
      (analyzeRealImageEnhanced fixtureColors none [] zeroRand).metrics.acne = none ∧
      (analyzeRealImageEnhanced fixtureColors none [] zeroRand).metrics.wrinkles = none) := by
  intro h
  rw [fixture_metrics] at h
  obtain ⟨h1, -, -, -, -, -⟩ := h
  norm_num at h1

/-- C6 amended: at the fixture the full pipeline returns oiliness 54 (below
the expected [60,80]), redness 39 (above the expected [5,25]), texture 23,
present acne 8 and wrinkles 28; the returned skin type is `very-light`,
which does equal the class of the ITA computed from the dominant sample (the
only part of the expectation the code meets). -/
theorem c6_fixture_actual_values :
    (analyzeRealImageEnhanced fixtureColors none [] zeroRand).metrics =
      ⟨54, 39, 23, some 8, some 28⟩ ∧
    (analyzeRealImageEnhanced fixtureColors none [] zeroRand).skinType =
      some "very-light" ∧
    classifySkinType (itaDeg (hexToRgb "#F0E5D0")) = "very-light" := by
  refine ⟨fixture_metrics, fixture_skinType, ?_⟩
  have h : hexToRgb "#F0E5D0" = ⟨240, 229, 208⟩ := by decide
  rw [h]
  exact ita_fixture

/-- C7: temporal smoothing equals the specified weighted formula: with no
history the input is returned unchanged; otherwise each metric equals
round(0.5*current + 0.3*previous1 + 0.2*previous2), where an absent
previous slot contributes nothing (weights are not renormalized) and at
most two previous records are used. -/
theorem c7_smoothing_formula (cur : SkinMetrics) (prev : List SkinMetrics) :
    applyTemporalSmoothing cur prev = smoothingSpec cur prev := by
  match prev with
  | [] =>
    rw [applyTemporalSmoothing, smoothingSpec]
    simp
  | [p1] =>
    rw [applyTemporalSmoothing, smoothingSpec]
    simp only [List.isEmpty_cons, Bool.false_eq_true, if_false, List.take, List.enum,
      List.enumFrom, List.foldl, addWeighted, List.getD, List.get?, Option.getD]
    simp only [SkinMetrics.mk.injEq, Option.some.injEq]
    refine ⟨?_, ?_, ?_, ?_, ?_⟩ <;> (congr 1; ring)
  | p1 :: p2 :: rest =>
    rw [applyTemporalSmoothing, smoothingSpec]
    simp only [List.isEmpty_cons, Bool.false_eq_true, if_false, List.take, List.enum,
      List.enumFrom, List.foldl, addWeighted, List.getD, List.get?, Option.getD]
    simp only [SkinMetrics.mk.injEq, Option.some.injEq]
    refine ⟨?_, ?_, ?_, ?_, ?_⟩ <;> (congr 1; ring)

/-- C8: the lighting sub-score of the confidence computation takes exactly
the values 100 (brightness in [60,180]), 85 (brightness in [40,200] but
outside [60,180]) and 70 (brightness below 40 or above 200). -/
theorem c8_lighting_score_steps (rgb : Rgb) :
    (60 ≤ (rgb.r + rgb.g + rgb.b) / 3 ∧ (rgb.r + rgb.g + rgb.b) / 3 ≤ 180 →
      lightingScore rgb = 100) ∧
    (40 ≤ (rgb.r + rgb.g + rgb.b) / 3 ∧ (rgb.r + rgb.g + rgb.b) / 3 ≤ 200 ∧
      ((rgb.r + rgb.g + rgb.b) / 3 < 60 ∨ 180 < (rgb.r + rgb.g + rgb.b) / 3) →
      lightingScore rgb = 85) ∧
    ((rgb.r + rgb.g + rgb.b) / 3 < 40 ∨ 200 < (rgb.r + rgb.g + rgb.b) / 3 →
      lightingScore rgb = 70) ∧
    (lightingScore rgb = 100 ∨ lightingScore rgb = 85 ∨ lightingScore rgb = 70) := by
  rw [lightingScore]
  split_ifs with h1 h2
  · refine ⟨?_, ?_, fun _ => rfl, Or.inr (Or.inr rfl)⟩
    · intro h
      exfalso
      rcases h1 with h1 | h1 <;> linarith [h.1, h.2]
    · intro h
      exfalso
      rcases h1 with h1 | h1 <;> linarith [h.1, h.2.1]
  · push_neg at h1
    refine ⟨?_, fun _ => rfl, ?_, Or.inr (Or.inl rfl)⟩
    · intro h
      exfalso
      rcases h2 with h2 | h2 <;> linarith [h.1, h.2]
    · intro h
      exfalso
      rcases h with h | h <;> linarith [h1.1, h1.2]
  · push_neg at h1 h2
    refine ⟨fun _ => rfl, ?_, ?_, Or.inl rfl⟩
    · intro h
      exfalso
      rcases h.2.2 with h3 | h3 <;> linarith [h2.1, h2.2]
    · intro h
      exfalso
      rcases h with h | h <;> linarith [h1.1, h1.2]

/-- C8 witness: the three steps of the lighting score at brightness 100,
50 and 10. -/
theorem c8_lighting_score_steps_witness :
    lightingScore ⟨100, 100, 100⟩ = 100 ∧ lightingScore ⟨50, 50, 50⟩ = 85 ∧
      lightingScore ⟨10, 10, 10⟩ = 70 :=
  ⟨(c8_lighting_score_steps ⟨100, 100, 100⟩).1 (by norm_num),
   (c8_lighting_score_steps ⟨50, 50, 50⟩).2.1 (by norm_num),
   (c8_lighting_score_steps ⟨10, 10, 10⟩).2.2.1 (by norm_num)⟩

/-- C9: for every extraction input the environmental factors satisfy
lightingQuality in [0.7, 1.0], colorTemperature in {0.9, 1.0, 1.1} and
contrast in {0.8, 1.0, 1.2}; since lightingQuality never exceeds 1, the
environmental correction never increases oiliness or a present acne value
(both are at least 5 on the raw scale). -/
theorem c9_env_factor_ranges (colors : Colors) (m : SkinMetrics) :
    (0.7 ≤ (calculateEnvironmentalQuality colors).lightingQuality ∧
      (calculateEnvironmentalQuality colors).lightingQuality ≤ 1) ∧
    ((calculateEnvironmentalQuality colors).colorTemperature = 0.9 ∨
      (calculateEnvironmentalQuality colors).colorTemperature = 1 ∨
      (calculateEnvironmentalQuality colors).colorTemperature = 1.1) ∧
    ((calculateEnvironmentalQuality colors).contrast = 0.8 ∨
      (calculateEnvironmentalQuality colors).contrast = 1 ∨
      (calculateEnvironmentalQuality colors).contrast = 1.2) ∧
    (5 ≤ m.oiliness →
      (applyEnvironmentalCorrections m (calculateEnvironmentalQuality colors)).oiliness ≤
        m.oiliness) ∧
    (∀ a : ℤ, m.acne = some a → 5 ≤ a →
      ∃ a2 : ℤ, (applyEnvironmentalCorrections m
        (calculateEnvironmentalQuality colors)).acne = some a2 ∧ a2 ≤ a) := by
  obtain ⟨hl0, hl1⟩ := calcEnv_lightingQuality_range colors
  refine ⟨⟨hl0, hl1⟩, calcEnv_colorTemperature_mem colors, calcEnv_contrast_mem colors,
    ?_, ?_⟩
  · intro h5
    rw [applyEnvironmentalCorrections]
    apply jround_le
    have h5q : (5 : ℚ) ≤ (m.oiliness : ℚ) := by exact_mod_cast h5
    have h0 : (0 : ℚ) ≤ (m.oiliness : ℚ) := by linarith
    have hx : (m.oiliness : ℚ) * (calculateEnvironmentalQuality colors).lightingQuality ≤
        (m.oiliness : ℚ) := mul_le_of_le_one_right h0 hl1
    exact max_le h5q (le_trans (min_le_right _ _) hx)
  · intro a ha h5a
    refine ⟨jround (max 5 (min 95 (acneOr0 m *
      (calculateEnvironmentalQuality colors).lightingQuality))), rfl, ?_⟩
    apply jround_le
    have hav : acneOr0 m = (a : ℚ) := by rw [acneOr0, ha]; rfl
    rw [hav]
    have h5q : (5 : ℚ) ≤ (a : ℚ) := by exact_mod_cast h5a
    have h0 : (0 : ℚ) ≤ (a : ℚ) := by linarith
    have hx : (a : ℚ) * (calculateEnvironmentalQuality colors).lightingQuality ≤ (a : ℚ) :=
      mul_le_of_le_one_right h0 hl1
    exact max_le h5q (le_trans (min_le_right _ _) hx)

/-- C9 witness: the factor ranges and the no-increase property at a
concrete input. -/
theorem c9_env_factor_ranges_witness :
    0.7 ≤ (calculateEnvironmentalQuality c4colors).lightingQuality ∧
    (applyEnvironmentalCorrections ⟨10, 10, 10, some 10, some 10⟩
      (calculateEnvironmentalQuality c4colors)).oiliness ≤ 10 ∧
    ∃ a2 : ℤ, (applyEnvironmentalCorrections ⟨10, 10, 10, some 10, some 10⟩
      (calculateEnvironmentalQuality c4colors)).acne = some a2 ∧ a2 ≤ 10 :=
  ⟨(c9_env_factor_ranges c4colors ⟨10, 10, 10, some 10, some 10⟩).1.1,
   (c9_env_factor_ranges c4colors ⟨10, 10, 10, some 10, some 10⟩).2.2.2.1 (by norm_num),
   (c9_env_factor_ranges c4colors ⟨10, 10, 10, some 10, some 10⟩).2.2.2.2 10 rfl
     (by norm_num)⟩

/-- C10: the environmental-correction stage always returns present acne and
wrinkles fields computed from the `|| 0`-coerced inputs, and its clamp makes
them at least 5; the temporal-smoothing stage with non-empty history also
always returns present acne and wrinkles fields. -/
theorem c10_optional_fields_materialized (m : SkinMetrics) (e : EnvironmentalFactors)
    (prev : List SkinMetrics) :
    ((applyEnvironmentalCorrections m e).acne =
        some (jround (max 5 (min 95 (acneOr0 m * e.lightingQuality)))) ∧
      (applyEnvironmentalCorrections m e).wrinkles =
        some (jround (max 5 (min 95 (wrinklesOr0 m * e.contrast)))) ∧
      (∀ a : ℤ, (applyEnvironmentalCorrections m e).acne = some a → 5 ≤ a) ∧
      (∀ w : ℤ, (applyEnvironmentalCorrections m e).wrinkles = some w → 5 ≤ w)) ∧
    (prev ≠ [] →
      (applyTemporalSmoothing m prev).acne.isSome ∧
      (applyTemporalSmoothing m prev).wrinkles.isSome) := by
  refine ⟨⟨rfl, rfl, ?_, ?_⟩, ?_⟩
  · intro a ha
    simp only [applyEnvironmentalCorrections, Option.some.injEq] at ha
    rw [← ha]
    apply le_jround
    push_cast
    exact le_max_left _ _
  · intro w hw
    simp only [applyEnvironmentalCorrections, Option.some.injEq] at hw
    rw [← hw]
    apply le_jround
    push_cast
    exact le_max_left _ _
  · intro hne
    rw [applyTemporalSmoothing]
    have hne2 : prev.isEmpty = false := by
      cases prev with
      | nil => exact absurd rfl hne
      | cons a l => rfl
    rw [hne2]
    simp

/-- C10 witness: at a record with absent acne the correction stage coerces
to 0 and the clamp raises the output to exactly 5; smoothing with one
previous record keeps both optional fields present. -/
theorem c10_optional_fields_materialized_witness :
    (applyEnvironmentalCorrections ⟨60, 30, 40, none, some 10⟩ ⟨0.82, 1, 1.2⟩).acne =
      some 5 ∧ (5 : ℤ) ≤ 5 ∧
    (applyTemporalSmoothing ⟨60, 30, 40, none, some 10⟩ [⟨1, 2, 3, none, none⟩]).acne.isSome ∧
    (applyTemporalSmoothing ⟨60, 30, 40, none, some 10⟩
      [⟨1, 2, 3, none, none⟩]).wrinkles.isSome := by
  have ha : (applyEnvironmentalCorrections ⟨60, 30, 40, none, some 10⟩
      ⟨0.82, 1, 1.2⟩).acne = some 5 := by
    show some (jround (max 5 (min 95 (acneOr0 ⟨60, 30, 40, none, some 10⟩ * 0.82)))) = some 5
    norm_num [acneOr0, jround]
  have h2 := (c10_optional_fields_materialized ⟨60, 30, 40, none, some 10⟩ ⟨0.82, 1, 1.2⟩
    [⟨1, 2, 3, none, none⟩]).2 (by simp)
  exact ⟨ha, (c10_optional_fields_materialized ⟨60, 30, 40, none, some 10⟩ ⟨0.82, 1, 1.2⟩
    [⟨1, 2, 3, none, none⟩]).1.2.2.1 5 ha, h2.1, h2.2⟩

end BetterSkin
